import Mathlib

/-!
Verification development for the WheatDryFACE monitoring dashboard
(`src/app.py`).  The CSV ingestion / time-series normalization pipeline is
shallowly embedded: each Python helper becomes an executable Lean function
over an explicit model of the local file system, and the pandas library
calls the code relies on (`read_csv` with `skiprows=1`, `Series.str.match`,
`to_datetime(errors=coerce)`, `dropna`, `to_numeric(errors=coerce)`,
`concat` + `drop_duplicates(keep=first)`, `rolling(w).mean()`) are
modelled at the granularity the code uses them.

Conventions:
- a CSV file is represented after the one skipped metadata line, as a
  header (list of column names) plus data rows (lists of raw text cells);
- pandas missing values (`NaN` / `NaT`) are `Option.none`;
- numeric measurements are embedded as `ℚ` (the program only ever moves
  decimal literals around, never computes with rounding before the claims
  under study);
- a Python call that can raise is embedded as `PyResult`, with `raised`
  for an uncaught exception and `returns` for a normal return (`returns
  none` embeds the Python statement `return None`).
-/

/-- Errors the embedded code can raise, named after the Python exceptions. -/
inductive PyErr where
  | keyError
  | nameError
  | emptyDataError
  | fileNotFoundError
deriving DecidableEq, Repr

/-- Result of running an embedded Python function: normal return or raise. -/
inductive PyResult (α : Type) where
  | raised (e : PyErr)
  | returns (v : α)
deriving DecidableEq, Repr

/-- Does the second character list start with the first one? -/
def startsWithChars : List Char → List Char → Bool
  | [], _ => true
  | _ :: _, [] => false
  | a :: as, b :: bs => a == b && startsWithChars as bs

/-- Does the character list `hay` contain `needle` as a contiguous run? -/
def containsChars (needle : List Char) : List Char → Bool
  | [] => needle.isEmpty
  | b :: bs => startsWithChars needle (b :: bs) || containsChars needle bs

/-- String containment test: does `hay` contain `needle` as a substring?
Models the Python test `needle in hay`. -/
def strContainsSub (hay needle : String) : Bool :=
  containsChars needle.toList hay.toList

/-- ASCII lowercasing of one character, as the Python `str.lower` method acts on
the ASCII column names of this data. -/
def lowerChar (c : Char) : Char :=
  if c.isUpper then Char.ofNat (c.toNat + 32) else c

/-- ASCII lowercasing of a string, viewed as its character list. -/
def lowerChars (s : String) : List Char := s.toList.map lowerChar

/-- Numeric value of two decimal digit characters, when both are digits. -/
def digit2 (a b : Char) : Option Nat :=
  if a.isDigit && b.isDigit then some ((a.toNat - 48) * 10 + (b.toNat - 48)) else none

/-- Numeric value of four decimal digit characters, when all are digits. -/
def digit4 (a b c d : Char) : Option Nat :=
  if a.isDigit && b.isDigit && c.isDigit && d.isDigit then
    some ((a.toNat - 48) * 1000 + (b.toNat - 48) * 100 + (c.toNat - 48) * 10 + (d.toNat - 48))
  else none

/-- Gregorian leap-year test, as used by datetime parsing. -/
def isLeapYear (y : Nat) : Bool :=
  (y % 4 == 0 && y % 100 != 0) || y % 400 == 0

/-- Number of days in a month, for timestamp validity checking. -/
def daysInMonth (y m : Nat) : Nat :=
  if m == 2 then (if isLeapYear y then 29 else 28)
  else if m == 4 || m == 6 || m == 9 || m == 11 then 30
  else 31

/-- A timezone-naive point in time, the parse result of a timestamp cell. -/
structure Timestamp where
  year : Nat
  month : Nat
  day : Nat
  hour : Nat
  minute : Nat
  second : Nat
deriving DecidableEq, Repr

/-- Parses the optional clock part (empty, `" HH:MM"` or `" HH:MM:SS"`,
with `T` also accepted as separator) of a timestamp string. -/
def parseClock (cs : List Char) : Option (Nat × Nat × Nat) :=
  match cs with
  | [] => some (0, 0, 0)
  | sep :: h1 :: h2 :: ':' :: m1 :: m2 :: rest =>
    if sep == ' ' || sep == 'T' then
      match digit2 h1 h2, digit2 m1 m2 with
      | some h, some mi =>
        if h ≤ 23 ∧ mi ≤ 59 then
          match rest with
          | [] => some (h, mi, 0)
          | ':' :: s1 :: s2 :: [] =>
            match digit2 s1 s2 with
            | some s => if s ≤ 59 then some (h, mi, s) else none
            | none => none
          | _ => none
        else none
      | _, _ => none
    else none
  | _ => none

/-- Models `pd.to_datetime(cell, errors=coerce)` on the ISO-like
`YYYY-MM-DD[ HH:MM[:SS]]` strings this pipeline feeds it: `none` is NaT. -/
def parseTimestamp (s : String) : Option Timestamp :=
  match s.toList with
  | y1 :: y2 :: y3 :: y4 :: '-' :: m1 :: m2 :: '-' :: d1 :: d2 :: rest =>
    match digit4 y1 y2 y3 y4, digit2 m1 m2, digit2 d1 d2 with
    | some y, some mo, some d =>
      if 1 ≤ mo ∧ mo ≤ 12 ∧ 1 ≤ d ∧ d ≤ daysInMonth y mo then
        match parseClock rest with
        | some (h, mi, sec) => some ⟨y, mo, d, h, mi, sec⟩
        | none => none
      else none
    | _, _, _ => none
  | _ => none

/-- Models the regex test `Series.str.match` at src/app.py:55 with the
anchored four-digit-year date pattern: the match succeeds exactly when
the first ten characters follow the `YYYY-MM-DD` digit/dash shape
(`na=False` is subsumed: an empty NA cell cannot match). -/
def matchesDatePattern (s : String) : Bool :=
  match s.toList with
  | a :: b :: c :: d :: '-' :: e :: f :: '-' :: g :: k :: _ =>
    a.isDigit && b.isDigit && c.isDigit && d.isDigit &&
      e.isDigit && f.isDigit && g.isDigit && k.isDigit
  | _ => false

/-- Raw cell texts `pandas.read_csv` reads back as missing (`NaN`),
its default `na_values` set. -/
def naTokens : List String :=
  ["", "#N/A", "#N/A N/A", "#NA", "-NaN", "-nan", "<NA>", "N/A", "NA",
   "NULL", "NaN", "None", "n/a", "nan", "null"]

/-- True when `read_csv` stores the raw cell as a missing value. -/
def cellIsNA (s : String) : Bool := naTokens.contains s

/-- Digits-to-number accumulator for `parseNumber`. -/
def digitsToNat (cs : List Char) : Nat :=
  cs.foldl (fun acc c => acc * 10 + (c.toNat - 48)) 0

/-- Models `pd.to_numeric(cell, errors=coerce)` on a raw text cell:
optional sign, integer digits, optional fractional part; `none` is NaN. -/
def parseNumber (s : String) : Option ℚ :=
  let sr : Int × List Char :=
    match s.toList with
    | '-' :: r => (-1, r)
    | '+' :: r => (1, r)
    | r => (1, r)
  match (sr.2).span (fun c => c.isDigit) with
  | (intPart, rest) =>
    match rest with
    | [] =>
      if intPart.isEmpty then none
      else some (((sr.1 * digitsToNat intPart : Int) : ℚ))
    | '.' :: fracPart =>
      if fracPart.all (fun c => c.isDigit) && !(intPart.isEmpty && fracPart.isEmpty) then
        some (Rat.divInt (sr.1 * (digitsToNat intPart * 10 ^ fracPart.length + digitsToNat fracPart))
          ((10 : Int) ^ fracPart.length))
      else none
    | _ => none

/-- A CSV file as this pipeline sees it: `pd.read_csv(path, skiprows=1)`
has already discarded the single leading metadata line, leaving a header
row of column names and data rows of raw text cells. -/
structure CsvFile where
  header : List String
  rows : List (List String)
deriving DecidableEq, Repr

/-- State of a path on the local disk: absent, present with zero length,
or present as a readable CSV file. -/
inductive DiskFile where
  | missing
  | empty
  | csv (f : CsvFile)
deriving DecidableEq, Repr

/-- A cell of a data row at a column index; a short row reads as missing,
exactly as `read_csv` pads ragged rows with NaN. -/
def getCell (row : List String) (i : Nat) : String := row.getD i ""

/-- Index of the first column whose name contains "timestamp"
case-insensitively, as in
`next((col for col in df.columns if "timestamp" in col.lower()), None)`. -/
def findTimestampCol (header : List String) : Option Nat :=
  header.findIdx? (fun col => containsChars "timestamp".toList (lowerChars col))

/-- Index of the first column with exactly the given name. -/
def colIndex (header : List String) (name : String) : Option Nat :=
  header.findIdx? (fun col => col == name)

/-- Embeds `get_co2_type` (src/app.py:29-33): "aCO2" when the ring name is
in the ambient list, otherwise "eCO2"; the elevated list is never read. -/
def get_co2_type (ring_name : String) : String :=
  let aCO2_rings := ["Ring_1", "Ring_3", "Ring_6"]
  let _eCO2_rings := ["Ring_2", "Ring_4", "Ring_5"]
  if aCO2_rings.contains ring_name then "aCO2" else "eCO2"

/-- One-pass duplicate dropper: keeps an element only if its key was not
seen before. -/
def dedupAux {α κ : Type} [DecidableEq κ] (key : α → κ) (seen : List κ) : List α → List α
  | [] => []
  | x :: xs =>
    if key x ∈ seen then dedupAux key seen xs
    else x :: dedupAux key (key x :: seen) xs

/-- Models `DataFrame.drop_duplicates(subset=key, keep=first)`: the first
row with each key survives, in order. -/
def drop_duplicates_first {α κ : Type} [DecidableEq κ] (key : α → κ) (l : List α) : List α :=
  dedupAux key [] l

/-- One row of the combined CO₂ frame: columns TIMESTAMP, CO2_Avg, Rings,
CO2 in the order src/app.py builds them. -/
structure CO2Row where
  timestamp : Option Timestamp
  co2_avg : Option ℚ
  rings : String
  co2 : String
deriving DecidableEq, Repr

/-- The shared per-file body of `load_and_process_ring_data`
(src/app.py:55-62 for historical files, 77-84 for the recent file), given
the index `tcol` of the already-located timestamp column:
regex-filter the timestamp cells, parse them (`errors=coerce`), select
`[TIMESTAMP, CO2_Avg]` — a `KeyError` if `CO2_Avg` is absent —
`dropna` on the raw `CO2_Avg` cells, tag the ring, and only then coerce
`CO2_Avg` with `to_numeric(errors=coerce)`, so unparseable values
survive as NaN. -/
def co2ProcessRows (ring_name : String) (f : CsvFile) (tcol : Nat) :
    PyResult (List CO2Row) :=
  let kept := f.rows.filter (fun r => matchesDatePattern (getCell r tcol))
  match colIndex f.header "CO2_Avg" with
  | none => .raised .keyError
  | some vcol =>
    let kept2 := kept.filter (fun r => !(cellIsNA (getCell r vcol)))
    .returns (kept2.map (fun r =>
      { timestamp := parseTimestamp (getCell r tcol)
        co2_avg := parseNumber (getCell r vcol)
        rings := ring_name
        co2 := get_co2_type ring_name }))

/-- One iteration of the historical loop of `load_and_process_ring_data`
(src/app.py:44-64): a missing or zero-length file, or one without a
timestamp column, is skipped; otherwise the processed frame is appended. -/
def co2HistStep (ring_name : String) (fs : String → DiskFile)
    (acc : List (List CO2Row)) (path : String) : PyResult (List (List CO2Row)) :=
  match fs path with
  | .missing => .returns acc
  | .empty => .returns acc
  | .csv f =>
    match findTimestampCol f.header with
    | none => .returns acc
    | some tcol =>
      match co2ProcessRows ring_name f tcol with
      | .raised e => .raised e
      | .returns rows => .returns (acc ++ [rows])

/-- The historical loop of `load_and_process_ring_data`, folded over the
path list in input order. -/
def co2HistFold (ring_name : String) (fs : String → DiskFile) :
    List (List CO2Row) → List String → PyResult (List (List CO2Row))
  | acc, [] => .returns acc
  | acc, p :: ps =>
    match co2HistStep ring_name fs acc p with
    | .raised e => .raised e
    | .returns acc2 => co2HistFold ring_name fs acc2 ps

/-- The list of per-file historical frames accumulated by
`load_and_process_ring_data` before the recent file is touched. -/
def co2HistFrames (ring_name : String) (fs : String → DiskFile)
    (historical_paths : List String) : PyResult (List (List CO2Row)) :=
  co2HistFold ring_name fs [] historical_paths

/-- The recent-file block of `load_and_process_ring_data`
(src/app.py:67-86): a missing or zero-length recent file, or one without a
timestamp column, makes the function return `None`; otherwise its
processed rows. -/
def co2RecentRows (ring_name : String) (fs : String → DiskFile)
    (recent_path : String) : PyResult (Option (List CO2Row)) :=
  match fs recent_path with
  | .missing => .returns none
  | .empty => .returns none
  | .csv f =>
    match findTimestampCol f.header with
    | none => .returns none
    | some tcol =>
      match co2ProcessRows ring_name f tcol with
      | .raised e => .raised e
      | .returns rows => .returns (some rows)

/-- Embeds `load_and_process_ring_data` (src/app.py:36-90): process the
historical files in order, then the mandatory recent file, concatenate the
frames historical-first and drop duplicate timestamps keeping the first
occurrence. -/
def load_and_process_ring_data (ring_name : String) (fs : String → DiskFile)
    (historical_paths : List String) (recent_path : String) :
    PyResult (Option (List CO2Row)) :=
  match co2HistFrames ring_name fs historical_paths with
  | .raised e => .raised e
  | .returns all_dfs =>
    match co2RecentRows ring_name fs recent_path with
    | .raised e => .raised e
    | .returns none => .returns none
    | .returns (some rows) =>
      .returns (some (drop_duplicates_first (fun r => r.timestamp)
        ((all_dfs ++ [rows]).flatten)))

/-- One row of the Ring_4 temperature/humidity frame: columns TIMESTAMP,
T_C, RH as built by `load_and_process_ring4_temp_rh_data`. -/
structure TRHRow where
  timestamp : Option Timestamp
  t_c : Option ℚ
  rh : Option ℚ
deriving DecidableEq, Repr

/-- Per-historical-file body of `load_and_process_ring4_temp_rh_data`
(src/app.py:111-124): regex-filter and parse timestamps, skip the file
when `T_Air_Avg` or `RH_Avg` is absent (returns `none`), `dropna` on the
raw measurement cells, and only then coerce each with
`to_numeric(errors=coerce)`, so unparseable values survive as NaN. -/
def trhProcessHistRows (f : CsvFile) (tcol : Nat) : Option (List TRHRow) :=
  match colIndex f.header "T_Air_Avg", colIndex f.header "RH_Avg" with
  | some tc, some rc =>
    let kept := f.rows.filter (fun r => matchesDatePattern (getCell r tcol))
    let kept2 := kept.filter (fun r =>
      !(cellIsNA (getCell r tc)) && !(cellIsNA (getCell r rc)))
    some (kept2.map (fun r =>
      { timestamp := parseTimestamp (getCell r tcol)
        t_c := parseNumber (getCell r tc)
        rh := parseNumber (getCell r rc) }))
  | _, _ => none

/-- Recent-file body of `load_and_process_ring4_temp_rh_data`
(src/app.py:137-148): unlike the historical body, the code coerces with
`to_numeric` first and then drops rows whose coerced `T_C` or `RH` is NaN,
so here coercion failures are dropped. `none` when a measurement column is
absent. -/
def trhProcessRecentRows (f : CsvFile) (tcol : Nat) : Option (List TRHRow) :=
  match colIndex f.header "T_Air_Avg", colIndex f.header "RH_Avg" with
  | some tc, some rc =>
    let kept := f.rows.filter (fun r => matchesDatePattern (getCell r tcol))
    let rows := kept.map (fun r =>
      ({ timestamp := parseTimestamp (getCell r tcol)
         t_c := parseNumber (getCell r tc)
         rh := parseNumber (getCell r rc) } : TRHRow))
    some (rows.filter (fun r => r.t_c.isSome && r.rh.isSome))
  | _, _ => none

/-- One iteration of the historical loop of
`load_and_process_ring4_temp_rh_data` (src/app.py:100-124): missing or
zero-length files, files without a timestamp column, and files without
both measurement columns are skipped. -/
def trhHistStep (fs : String → DiskFile) (acc : List (List TRHRow)) (path : String) :
    List (List TRHRow) :=
  match fs path with
  | .missing => acc
  | .empty => acc
  | .csv f =>
    match findTimestampCol f.header with
    | none => acc
    | some tcol =>
      match trhProcessHistRows f tcol with
      | none => acc
      | some rows => acc ++ [rows]

/-- The historical loop of `load_and_process_ring4_temp_rh_data`, in input
order; it cannot raise. -/
def trhHistFold (fs : String → DiskFile) :
    List (List TRHRow) → List String → List (List TRHRow)
  | acc, [] => acc
  | acc, p :: ps => trhHistFold fs (trhHistStep fs acc p) ps

/-- Embeds `load_and_process_ring4_temp_rh_data` (src/app.py:93-154).
The recent-file guard at line 127 reads
`if not os.path.exists(recent_path) or os.path.getsize(path) == 0`, where
`path` is the loop variable left over from the historical loop; after a
loop over `historical_paths` that variable holds the LAST historical path,
and it is unbound (`NameError`) when the list was empty.  `os.path.getsize`
on a missing path raises `FileNotFoundError`, and `pd.read_csv` on a
zero-length file raises `EmptyDataError`. -/
def load_and_process_ring4_temp_rh_data (fs : String → DiskFile)
    (historical_paths : List String) (recent_path : String) :
    PyResult (Option (List TRHRow)) :=
  let all_dfs := trhHistFold fs [] historical_paths
  match fs recent_path with
  | .missing => .returns none
  | _ =>
    match historical_paths.getLast? with
    | none => .raised .nameError
    | some p =>
      match fs p with
      | .missing => .raised .fileNotFoundError
      | .empty => .returns none
      | .csv _ =>
        match fs recent_path with
        | .missing => .raised .fileNotFoundError
        | .empty => .raised .emptyDataError
        | .csv f =>
          match findTimestampCol f.header with
          | none => .returns none
          | some tcol =>
            match trhProcessRecentRows f tcol with
            | none => .returns none
            | some rows =>
              let all2 := all_dfs ++ [rows]
              if all2.length = 0 then .returns none
              else .returns (some (drop_duplicates_first
                (fun r => r.timestamp) all2.flatten))

/-- One row of the Ring_5 rainfall frame: columns TIMESTAMP, Rain_mm. -/
structure RainRow where
  timestamp : Option Timestamp
  rain_mm : Option ℚ
deriving DecidableEq, Repr

/-- Per-historical-file body of `load_and_process_ring5_rain_data`
(src/app.py:176-186): skip when `Rain_p_Tot` is absent, `dropna` on the
raw cells, then coerce, keeping coercion failures as NaN. -/
def rainProcessHistRows (f : CsvFile) (tcol : Nat) : Option (List RainRow) :=
  match colIndex f.header "Rain_p_Tot" with
  | none => none
  | some rc =>
    let kept := f.rows.filter (fun r => matchesDatePattern (getCell r tcol))
    let kept2 := kept.filter (fun r => !(cellIsNA (getCell r rc)))
    some (kept2.map (fun r =>
      { timestamp := parseTimestamp (getCell r tcol)
        rain_mm := parseNumber (getCell r rc) }))

/-- Recent-file body of `load_and_process_ring5_rain_data`
(src/app.py:201-208): coerce first, then drop rows whose coerced `Rain_mm`
is NaN. -/
def rainProcessRecentRows (f : CsvFile) (tcol : Nat) : Option (List RainRow) :=
  match colIndex f.header "Rain_p_Tot" with
  | none => none
  | some rc =>
    let kept := f.rows.filter (fun r => matchesDatePattern (getCell r tcol))
    let rows := kept.map (fun r =>
      ({ timestamp := parseTimestamp (getCell r tcol)
         rain_mm := parseNumber (getCell r rc) } : RainRow))
    some (rows.filter (fun r => r.rain_mm.isSome))

/-- One iteration of the historical loop of
`load_and_process_ring5_rain_data` (src/app.py:165-188). -/
def rainHistStep (fs : String → DiskFile) (acc : List (List RainRow)) (path : String) :
    List (List RainRow) :=
  match fs path with
  | .missing => acc
  | .empty => acc
  | .csv f =>
    match findTimestampCol f.header with
    | none => acc
    | some tcol =>
      match rainProcessHistRows f tcol with
      | none => acc
      | some rows => acc ++ [rows]

/-- The historical loop of `load_and_process_ring5_rain_data`. -/
def rainHistFold (fs : String → DiskFile) :
    List (List RainRow) → List String → List (List RainRow)
  | acc, [] => acc
  | acc, p :: ps => rainHistFold fs (rainHistStep fs acc p) ps

/-- Embeds `load_and_process_ring5_rain_data` (src/app.py:157-217); the
recent-file guard at line 191 has the same `os.path.getsize(path)`
loop-variable read as the temperature/humidity loader. -/
def load_and_process_ring5_rain_data (fs : String → DiskFile)
    (historical_paths : List String) (recent_path : String) :
    PyResult (Option (List RainRow)) :=
  let all_dfs := rainHistFold fs [] historical_paths
  match fs recent_path with
  | .missing => .returns none
  | _ =>
    match historical_paths.getLast? with
    | none => .raised .nameError
    | some p =>
      match fs p with
      | .missing => .raised .fileNotFoundError
      | .empty => .returns none
      | .csv _ =>
        match fs recent_path with
        | .missing => .raised .fileNotFoundError
        | .empty => .raised .emptyDataError
        | .csv f =>
          match findTimestampCol f.header with
          | none => .returns none
          | some tcol =>
            match rainProcessRecentRows f tcol with
            | none => .returns none
            | some rows =>
              let all2 := all_dfs ++ [rows]
              if all2.length = 0 then .returns none
              else .returns (some (drop_duplicates_first
                (fun r => r.timestamp) all2.flatten))

/-- Models `Series.rolling(w).mean()` with the default
`min_periods = w`, as applied at src/app.py:660-662 (and 577-578,
634-635): position `i` is NaN for the first `w - 1` positions or when the
trailing window contains a NaN, and otherwise the exact mean of the `w`
trailing values. -/
def rollingMean (w : Nat) (xs : List (Option ℚ)) : List (Option ℚ) :=
  (List.range xs.length).map (fun i =>
    if i + 1 < w then none
    else
      let window := (xs.take (i + 1)).drop (i + 1 - w)
      if window.all (fun v => v.isSome) then
        some (((window.filterMap id).sum) / (w : ℚ))
      else none)

/-! Concrete fixtures used by the claim theorems, witnesses and
counterexamples. -/

/-- Midnight on 2024-01-01. -/
def tsA : Timestamp := ⟨2024, 1, 1, 0, 0, 0⟩

/-- Midnight on 2024-01-02. -/
def tsB : Timestamp := ⟨2024, 1, 2, 0, 0, 0⟩

/-- A historical CO₂ file holding the single point (tsA, 400). -/
def fileH1 : CsvFile :=
  ⟨["TIMESTAMP", "CO2_Avg"], [["2024-01-01 00:00", "400"]]⟩

/-- A recent CO₂ file overlapping tsA (with value 500) and adding
(tsB, 410). -/
def fileR1 : CsvFile :=
  ⟨["TIMESTAMP", "CO2_Avg"],
   [["2024-01-01 00:00", "500"], ["2024-01-02 00:00", "410"]]⟩

/-- Disk with one historical and one overlapping recent CO₂ file. -/
def fsC1 : String → DiskFile := fun p =>
  if p = "h1.csv" then .csv fileH1
  else if p = "r1.csv" then .csv fileR1
  else .missing

/-- The historical frames `fsC1` produces. -/
def dfsC1 : List (List CO2Row) :=
  [[⟨some tsA, some 400, "Ring_1", "aCO2"⟩]]

/-- The recent frame `fsC1` produces. -/
def rC1 : List CO2Row :=
  [⟨some tsA, some 500, "Ring_1", "aCO2"⟩, ⟨some tsB, some 410, "Ring_1", "aCO2"⟩]

/-- The combined, deduplicated output for `fsC1`: the historical value
wins at the overlapping timestamp. -/
def outC1 : List CO2Row :=
  [⟨some tsA, some 400, "Ring_1", "aCO2"⟩, ⟨some tsB, some 410, "Ring_1", "aCO2"⟩]

/-- A well-formed historical temperature/humidity file. -/
def fileTRH : CsvFile :=
  ⟨["TIMESTAMP", "T_Air_Avg", "RH_Avg"], [["2024-01-01 00:00", "10", "50"]]⟩

/-- Disk for the zero-length-recent scenario of the T/RH loader: the
historical file is fine, the recent file exists with zero length. -/
def fsC2 : String → DiskFile := fun p =>
  if p = "hist0.csv" then .csv fileTRH
  else if p = "recent.csv" then .empty
  else .missing

/-- A well-formed historical rainfall file. -/
def fileRain : CsvFile :=
  ⟨["TIMESTAMP", "Rain_p_Tot"], [["2024-01-01 00:00", "2"]]⟩

/-- Disk for the zero-length-recent scenario of the rain loader. -/
def fsC2R : String → DiskFile := fun p =>
  if p = "hist0.csv" then .csv fileRain
  else if p = "recent.csv" then .empty
  else .missing

/-- The malformed-row file of testable property 3: header
`timestamp,CO2_Avg`, one good row, one row with garbage timestamp, one
row whose value fails numeric coercion. -/
def fileC3 : CsvFile :=
  ⟨["timestamp", "CO2_Avg"],
   [["2024-01-01 00:00", "400"], ["garbage", "xyz"], ["2024-01-01 00:05", "not_a_number"]]⟩

/-- Disk with `fileC3` as the recent file and no historical files. -/
def fsC3 : String → DiskFile := fun p =>
  if p = "r3.csv" then .csv fileC3 else .missing

/-- The output the code produces from `fileC3`: two points, the second
with a missing (NaN) value. -/
def outC3 : List CO2Row :=
  [⟨some tsA, some 400, "Ring_1", "aCO2"⟩,
   ⟨some ⟨2024, 1, 1, 0, 5, 0⟩, none, "Ring_1", "aCO2"⟩]

/-- A file with one row whose timestamp matches the date pattern but
fails datetime parsing, and one row whose value fails numeric coercion. -/
def fileC4 : CsvFile :=
  ⟨["TIMESTAMP", "CO2_Avg"],
   [["2024-99-99 00:00", "400"], ["2024-01-01 00:00", "not_a_number"]]⟩

/-- Disk with `fileC4` as the recent file. -/
def fsC4 : String → DiskFile := fun p =>
  if p = "r4.csv" then .csv fileC4 else .missing

/-- The output the code produces from `fileC4`: a NaT-timestamp point and
a NaN-value point, both retained. -/
def outC4 : List CO2Row :=
  [⟨none, some 400, "Ring_1", "aCO2"⟩, ⟨some tsA, none, "Ring_1", "aCO2"⟩]

/-- The first row of `outC4`, used to witness row provenance. -/
def rowC4 : CO2Row := ⟨none, some 400, "Ring_1", "aCO2"⟩

/-- A file with a timestamp column but no `CO2_Avg` column (nor the
T/RH measurement columns). -/
def fileNoCO2 : CsvFile :=
  ⟨["TIMESTAMP", "Other"], [["2024-01-01 00:00", "1"]]⟩

/-- A fully well-formed recent CO₂ file. -/
def fileGoodRecent : CsvFile :=
  ⟨["TIMESTAMP", "CO2_Avg"], [["2024-01-02 00:00", "400"]]⟩

/-- Disk whose historical file lacks the `CO2_Avg` column while the
recent file is fine. -/
def fsC5 : String → DiskFile := fun p =>
  if p = "h5.csv" then .csv fileNoCO2
  else if p = "r5.csv" then .csv fileGoodRecent
  else .missing

/-- A recent file none of whose column names contains "timestamp". -/
def fileNoTs : CsvFile :=
  ⟨["Time", "CO2_Avg"], [["2024-01-01 00:00", "400"]]⟩

/-- Disk with a good historical CO₂ file and a recent file lacking a
timestamp column. -/
def fsC6 : String → DiskFile := fun p =>
  if p = "h6.csv" then .csv fileH1
  else if p = "r6.csv" then .csv fileNoTs
  else .missing

/-- A recent file whose single data row fails the date-pattern filter, so
zero rows survive. -/
def fileAllFiltered : CsvFile :=
  ⟨["TIMESTAMP", "CO2_Avg"], [["garbage", "x"]]⟩

/-- Disk with only the all-filtered recent file. -/
def fsC7 : String → DiskFile := fun p =>
  if p = "r7.csv" then .csv fileAllFiltered else .missing

example : parseTimestamp "2024-01-01 00:05" = some ⟨2024, 1, 1, 0, 5, 0⟩ := by decide
example : parseTimestamp "2024-99-99 00:00" = none := by decide
example : matchesDatePattern "2024-01-01 00:00" = true := by decide
example : matchesDatePattern "garbage" = false := by decide
example : parseNumber "400" = some 400 := by decide
example : parseNumber "not_a_number" = none := by decide
example : findTimestampCol ["TIMESTAMP", "CO2_Avg"] = some 0 := by decide
example : co2HistFrames "Ring_1" fsC1 ["h1.csv"] = .returns dfsC1 := by decide
example : co2RecentRows "Ring_1" fsC1 "r1.csv" = .returns (some rC1) := by decide
example : load_and_process_ring_data "Ring_1" fsC1 ["h1.csv"] "r1.csv" = .returns (some outC1) := by decide
example : load_and_process_ring4_temp_rh_data fsC2 ["hist0.csv"] "recent.csv" = .raised .emptyDataError := by decide
example : load_and_process_ring5_rain_data fsC2R ["hist0.csv"] "recent.csv" = .raised .emptyDataError := by decide
example : load_and_process_ring_data "Ring_1" fsC3 [] "r3.csv" = .returns (some outC3) := by decide
example : load_and_process_ring_data "Ring_1" fsC4 [] "r4.csv" = .returns (some outC4) := by decide
example : load_and_process_ring_data "Ring_1" fsC5 ["h5.csv"] "r5.csv" = .raised .keyError := by decide
example : load_and_process_ring_data "Ring_1" fsC6 ["h6.csv"] "r6.csv" = .returns none := by decide
example : load_and_process_ring_data "Ring_1" fsC7 [] "r7.csv" = .returns (some []) := by decide
example : load_and_process_ring4_temp_rh_data fsC2 [] "recent.csv" = .raised .nameError := by decide

/-! Generic facts about `drop_duplicates_first`. -/

theorem dedupAux_filter_of_mem {α κ : Type} [DecidableEq κ] (key : α → κ) (k : κ)
    (l : List α) (seen : List κ) (hk : k ∈ seen) :
    (dedupAux key seen l).filter (fun x => decide (key x = k)) = [] := by
  induction l generalizing seen with
  | nil => simp [dedupAux]
  | cons x xs ih =>
    by_cases hx : key x ∈ seen
    · simpa [dedupAux, hx] using ih seen hk
    · have hne : ¬ key x = k := fun he => hx (he ▸ hk)
      simp only [dedupAux, if_neg hx, List.filter_cons, decide_eq_true_eq, hne, if_false]
      exact ih (key x :: seen) (List.mem_cons_of_mem _ hk)

theorem dedupAux_filter_eq_find {α κ : Type} [DecidableEq κ] (key : α → κ) (k : κ)
    (l : List α) (seen : List κ) (hk : k ∉ seen) :
    (dedupAux key seen l).filter (fun x => decide (key x = k)) =
      (l.find? (fun x => decide (key x = k))).toList := by
  induction l generalizing seen with
  | nil => simp [dedupAux]
  | cons x xs ih =>
    by_cases hx : key x ∈ seen
    · have hne : ¬ key x = k := fun he => hk (he ▸ hx)
      rw [List.find?_cons_of_neg _ (by simpa using hne)]
      simpa [dedupAux, hx] using ih seen hk
    · by_cases hxk : key x = k
      · rw [List.find?_cons_of_pos _ (by simpa using hxk)]
        have hmem2 : k ∈ key x :: seen := by simp [hxk]
        simp only [dedupAux, if_neg hx, List.filter_cons, decide_eq_true_eq, if_pos hxk,
          Option.toList_some, dedupAux_filter_of_mem key k xs (key x :: seen) hmem2]
      · rw [List.find?_cons_of_neg _ (by simpa using hxk)]
        simp only [dedupAux, if_neg hx, List.filter_cons, decide_eq_true_eq, hxk, if_false]
        refine ih (key x :: seen) ?_
        intro hmem
        rcases List.mem_cons.mp hmem with he | he
        · exact hxk he.symm
        · exact hk he

theorem drop_duplicates_first_filter {α κ : Type} [DecidableEq κ] (key : α → κ) (k : κ)
    (l : List α) :
    (drop_duplicates_first key l).filter (fun x => decide (key x = k)) =
      (l.find? (fun x => decide (key x = k))).toList :=
  dedupAux_filter_eq_find key k l [] (by simp)

/-- C1: in every normalization call of the CO₂ loader whose historical
loop produced the frames `dfs` and whose recent block produced the rows
`r`, the output is the concatenation of the historical frames in input
order followed by the recent rows, deduplicated by timestamp keeping the
first occurrence; hence a timestamp occurring both in the historical
frames and in the recent rows yields exactly one output point, and that
point is the first historical row carrying it. -/
theorem co2_dedup_hist_first
    (ring : String) (fs : String → DiskFile) (hist : List String) (recent : String)
    (dfs : List (List CO2Row)) (r out : List CO2Row) (t : Option Timestamp)
    (h1 : co2HistFrames ring fs hist = PyResult.returns dfs)
    (h2 : co2RecentRows ring fs recent = PyResult.returns (some r))
    (h3 : load_and_process_ring_data ring fs hist recent = PyResult.returns (some out))
    (hh : t ∈ dfs.flatten.map (fun x => x.timestamp))
    (_hr : t ∈ r.map (fun x => x.timestamp)) :
    out = drop_duplicates_first (fun x => x.timestamp) (dfs.flatten ++ r) ∧
    ∃ row, row ∈ dfs.flatten ∧ row.timestamp = t ∧
      out.filter (fun x => decide (x.timestamp = t)) = [row] := by
  have hout : out = drop_duplicates_first (fun x => x.timestamp) (dfs.flatten ++ r) := by
    unfold load_and_process_ring_data at h3
    rw [h1, h2] at h3
    simp only [List.flatten_append, List.flatten_cons, List.flatten_nil,
      List.append_nil] at h3
    injection h3 with h4
    injection h4 with h5
    exact h5.symm
  obtain ⟨row0, hmem0, hts0⟩ := List.mem_map.mp hh
  have hsome : (dfs.flatten.find? (fun x => decide (x.timestamp = t))).isSome :=
    List.find?_isSome.mpr ⟨row0, hmem0, by simpa using hts0⟩
  obtain ⟨row, hrow⟩ := Option.isSome_iff_exists.mp hsome
  have hrowmem : row ∈ dfs.flatten := List.mem_of_find?_eq_some hrow
  have hrowkey : row.timestamp = t := by simpa using List.find?_some hrow
  have happ : (dfs.flatten ++ r).find? (fun x => decide (x.timestamp = t)) = some row := by
    rw [List.find?_append, hrow, Option.or]
  refine ⟨hout, row, hrowmem, hrowkey, ?_⟩
  rw [hout, drop_duplicates_first_filter, happ, Option.toList_some]

/-- Closed witness for `co2_dedup_hist_first`: one historical file and an
overlapping recent file, the overlap resolving to the historical value. -/
theorem co2_dedup_hist_first_witness :
    outC1 = drop_duplicates_first (fun x => x.timestamp) (dfsC1.flatten ++ rC1) ∧
    ∃ row, row ∈ dfsC1.flatten ∧ row.timestamp = some tsA ∧
      outC1.filter (fun x => decide (x.timestamp = some tsA)) = [row] :=
  co2_dedup_hist_first "Ring_1" fsC1 ["h1.csv"] "r1.csv" dfsC1 rC1 outC1 (some tsA)
    (by decide) (by decide) (by decide) (by decide) (by decide)

/-- C2: the claim asks that a recent file that is absent or zero-length
make every loader variant return Absent; the temperature/humidity and
rainfall variants instead test `os.path.getsize(path)` — the historical
loop variable — so with a healthy last historical file they march on and
`pd.read_csv` raises `EmptyDataError` on the zero-length recent file
(src/app.py:127, 191). -/
theorem recent_zero_length_check_misreads_historical_path :
    load_and_process_ring4_temp_rh_data fsC2 ["hist0.csv"] "recent.csv" =
      PyResult.raised PyErr.emptyDataError ∧
    load_and_process_ring5_rain_data fsC2R ["hist0.csv"] "recent.csv" =
      PyResult.raised PyErr.emptyDataError := by
  decide

/-- C3 (counterexample): on the malformed-row file of testable property 3
the CO₂ pipeline does NOT yield the single point (2024-01-01T00:00,
400.0): the row whose value fails numeric coercion is retained. -/
theorem co2_malformed_not_single_point :
    load_and_process_ring_data "Ring_1" fsC3 [] "r3.csv" ≠
      PyResult.returns (some [⟨some tsA, some 400, "Ring_1", "aCO2"⟩]) := by
  decide

/-- C3 (amended): on the malformed-row file the pipeline yields exactly
two points: (2024-01-01T00:00, 400.0) and (2024-01-01T00:05, NaN).  The
garbage-timestamp row is dropped by the date-pattern filter, but the row
whose value fails numeric coercion survives with a missing value, because
`dropna` runs on the raw column before `to_numeric(errors=coerce)`
(src/app.py:59, 62). -/
theorem co2_malformed_rows_result :
    load_and_process_ring_data "Ring_1" fsC3 [] "r3.csv" =
      PyResult.returns (some outC3) := by
  decide

/-- C4 (counterexample): a normalization call whose file has a row whose
timestamp matches the date pattern but fails datetime parsing, and a row
whose value fails numeric coercion, emits both rows with a missing (NaT /
NaN) field instead of dropping them. -/
theorem co2_point_with_missing_fields :
    load_and_process_ring_data "Ring_1" fsC4 [] "r4.csv" =
      PyResult.returns (some outC4) ∧
    ¬ (outC4.all (fun row => row.timestamp.isSome && row.co2_avg.isSome) = true) := by
  decide

/-- C4 (amended): a point is present in the CO₂ per-file output exactly
when its raw timestamp string matched the `YYYY-MM-DD` pattern and its raw
value cell was non-missing at read time; its timestamp field is the
`to_datetime` coercion of the raw string (possibly NaT) and its value
field the `to_numeric` coercion of the raw cell (possibly NaN) — failed
coercions are kept as missing fields, not dropped. -/
theorem co2_row_presence_iff
    (ring : String) (f : CsvFile) (tcol vcol : Nat) (out : List CO2Row) (row : CO2Row)
    (hv : colIndex f.header "CO2_Avg" = some vcol)
    (h : co2ProcessRows ring f tcol = PyResult.returns out) :
    row ∈ out ↔ ∃ raw, raw ∈ f.rows ∧
      matchesDatePattern (getCell raw tcol) = true ∧
      cellIsNA (getCell raw vcol) = false ∧
      row = { timestamp := parseTimestamp (getCell raw tcol)
              co2_avg := parseNumber (getCell raw vcol)
              rings := ring
              co2 := get_co2_type ring } := by
  unfold co2ProcessRows at h
  rw [hv] at h
  injection h with h
  subst h
  constructor
  · intro hrow
    obtain ⟨r0, hr0, hmk⟩ := List.mem_map.mp hrow
    have hfil := List.mem_filter.mp hr0
    have hfil2 := List.mem_filter.mp hfil.1
    exact ⟨r0, hfil2.1, hfil2.2, by simpa using hfil.2, hmk.symm⟩
  · rintro ⟨raw, hmem, hpat, hna, hrow⟩
    refine List.mem_map.mpr ⟨raw, ?_, hrow.symm⟩
    refine List.mem_filter.mpr ⟨List.mem_filter.mpr ⟨hmem, hpat⟩, ?_⟩
    simp [hna]

/-- Closed witness for `co2_row_presence_iff` at the NaT-timestamp row of
the concrete file `fileC4`: the row IS present (backward direction forced
by its qualifying raw row) even though its value cell failed coercion. -/
theorem co2_row_presence_iff_witness :
    rowC4 ∈ outC4 ↔ ∃ raw, raw ∈ fileC4.rows ∧
      matchesDatePattern (getCell raw 0) = true ∧
      cellIsNA (getCell raw 1) = false ∧
      rowC4 = { timestamp := parseTimestamp (getCell raw 0)
                co2_avg := parseNumber (getCell raw 1)
                rings := "Ring_1"
                co2 := get_co2_type "Ring_1" } :=
  co2_row_presence_iff "Ring_1" fileC4 0 1 outC4 rowC4 (by decide) (by decide)

/-- C5 (counterexample): a historical file with a timestamp column but no
`CO2_Avg` column makes the CO₂ loader raise a `KeyError` at the column
selection `df[[TIMESTAMP, CO2_Avg]]` (src/app.py:59), aborting the
whole call instead of contributing zero points and continuing. -/
theorem co2_missing_column_raises :
    load_and_process_ring_data "Ring_1" fsC5 ["h5.csv"] "r5.csv" =
      PyResult.raised PyErr.keyError := by
  decide

/-- C5 (amended): the loaders with an explicit column-presence check
(temperature/humidity — and likewise rainfall and wind) skip a historical
file lacking a required measurement column, contributing zero points and
continuing, but the CO₂ loader has no such check and raises `KeyError`
for any file lacking `CO2_Avg`. -/
theorem missing_measurement_column_behavior
    (ring : String) (fs : String → DiskFile) (acc : List (List CO2Row))
    (accT : List (List TRHRow)) (p : String) (f : CsvFile) (tcol : Nat)
    (hf : fs p = DiskFile.csv f)
    (ht : findTimestampCol f.header = some tcol)
    (hco2 : colIndex f.header "CO2_Avg" = none)
    (htair : colIndex f.header "T_Air_Avg" = none) :
    co2HistStep ring fs acc p = PyResult.raised PyErr.keyError ∧
    trhHistStep fs accT p = accT := by
  constructor
  · simp [co2HistStep, co2ProcessRows, hf, ht, hco2]
  · simp [trhHistStep, trhProcessHistRows, hf, ht, htair]

/-- Closed witness for `missing_measurement_column_behavior` on the file
with only a timestamp column and an unrelated column. -/
theorem missing_measurement_column_behavior_witness :
    co2HistStep "Ring_1" fsC5 [] "h5.csv" = PyResult.raised PyErr.keyError ∧
    trhHistStep fsC5 [] "h5.csv" = [] :=
  missing_measurement_column_behavior "Ring_1" fsC5 [] [] "h5.csv" fileNoCO2 0
    (by decide) (by decide) (by decide) (by decide)

/-- C6 (counterexample): when the RECENT file has no timestamp-like
column the whole CO₂ normalization call returns Absent (`None`), even
though a historical file had already contributed a point — the call is
aborted, not just the contribution of that file (src/app.py:72-75). -/
theorem co2_recent_no_timestamp_discards_historical :
    co2HistFrames "Ring_1" fsC6 ["h6.csv"] = PyResult.returns dfsC1 ∧
    load_and_process_ring_data "Ring_1" fsC6 ["h6.csv"] "r6.csv" =
      PyResult.returns none := by
  decide

/-- C6 (amended): a HISTORICAL file without a timestamp-like column only
loses its own contribution and the loop continues (src/app.py:50-53), but
a RECENT file without one makes the entire call return Absent, discarding
every historical contribution (src/app.py:72-75). -/
theorem timestamp_column_missing_behavior
    (ring : String) (fs : String → DiskFile) (hist : List String) (recent : String)
    (dfs : List (List CO2Row)) (f g : CsvFile) (acc : List (List CO2Row)) (p : String)
    (h1 : co2HistFrames ring fs hist = PyResult.returns dfs)
    (hr : fs recent = DiskFile.csv f)
    (htf : findTimestampCol f.header = none)
    (hp : fs p = DiskFile.csv g)
    (htg : findTimestampCol g.header = none) :
    load_and_process_ring_data ring fs hist recent = PyResult.returns none ∧
    co2HistStep ring fs acc p = PyResult.returns acc := by
  constructor
  · unfold load_and_process_ring_data
    rw [h1]
    simp [co2RecentRows, hr, htf]
  · simp [co2HistStep, hp, htg]

/-- Closed witness for `timestamp_column_missing_behavior` on a disk with
one good historical file and a recent file lacking a timestamp column. -/
theorem timestamp_column_missing_behavior_witness :
    load_and_process_ring_data "Ring_1" fsC6 ["h6.csv"] "r6.csv" =
      PyResult.returns none ∧
    co2HistStep "Ring_1" fsC6 [] "r6.csv" = PyResult.returns [] :=
  timestamp_column_missing_behavior "Ring_1" fsC6 ["h6.csv"] "r6.csv" dfsC1
    fileNoTs fileNoTs [] "r6.csv" (by decide) (by decide) (by decide) (by decide) (by decide)

/-- C7 (counterexample): when every data row of an otherwise healthy
recent file is filtered out, the CO₂ loader returns a present-but-EMPTY
frame, not Absent — there is no empty-result check before the final
concat (src/app.py:88-90). -/
theorem co2_zero_rows_present_empty :
    load_and_process_ring_data "Ring_1" fsC7 [] "r7.csv" =
      PyResult.returns (some []) ∧
    some ([] : List CO2Row) ≠ (none : Option (List CO2Row)) := by
  decide

/-- C7 (amended): if the recent file passes the existence, timestamp- and
measurement-column checks, the CO₂ loader returns a PRESENT series even
when zero rows survive the filters: with no surviving historical or
recent rows the result is `some []`, never Absent. -/
theorem co2_zero_rows_yields_present_empty
    (ring : String) (fs : String → DiskFile) (hist : List String) (recent : String)
    (dfs : List (List CO2Row)) (f : CsvFile) (tcol : Nat)
    (h1 : co2HistFrames ring fs hist = PyResult.returns dfs)
    (h2 : fs recent = DiskFile.csv f)
    (h3 : findTimestampCol f.header = some tcol)
    (h4 : co2ProcessRows ring f tcol = PyResult.returns [])
    (h5 : dfs.flatten = []) :
    load_and_process_ring_data ring fs hist recent = PyResult.returns (some []) := by
  unfold load_and_process_ring_data
  rw [h1]
  simp [co2RecentRows, h2, h3, h4, h5, drop_duplicates_first, dedupAux]

/-- Closed witness for `co2_zero_rows_yields_present_empty` on a recent
file whose only row fails the date-pattern filter. -/
theorem co2_zero_rows_yields_present_empty_witness :
    load_and_process_ring_data "Ring_1" fsC7 [] "r7.csv" =
      PyResult.returns (some []) :=
  co2_zero_rows_yields_present_empty "Ring_1" fsC7 [] "r7.csv" [] fileAllFiltered 0
    (by decide) (by decide) (by decide) (by decide) (by decide)

/-- C9: the derived CO₂ category is "aCO2" exactly for the three ambient
ring names Ring_1, Ring_3, Ring_6, and "eCO2" for every other string
whatsoever — `get_co2_type` never consults the elevated ring list. -/
theorem get_co2_type_spec (name : String) :
    (get_co2_type name = "aCO2" ↔
      (name = "Ring_1" ∨ name = "Ring_3" ∨ name = "Ring_6")) ∧
    (¬ (name = "Ring_1" ∨ name = "Ring_3" ∨ name = "Ring_6") →
      get_co2_type name = "eCO2") := by
  unfold get_co2_type
  by_cases h : name = "Ring_1" ∨ name = "Ring_3" ∨ name = "Ring_6"
  · constructor
    · refine ⟨fun _ => h, fun _ => ?_⟩
      rw [if_pos (by simpa using h)]
    · exact fun hn => absurd h hn
  · constructor
    · constructor
      · intro hs
        rw [if_neg (by simpa using h)] at hs
        exact absurd hs (by decide)
      · exact fun hs => absurd hs h
    · intro _
      rw [if_neg (by simpa using h)]

/-- Closed witness for `get_co2_type_spec` at an unrecognized ring name,
which is silently classified as elevated. -/
theorem get_co2_type_spec_witness :
    (get_co2_type "Ring_7" = "aCO2" ↔
      ("Ring_7" = "Ring_1" ∨ "Ring_7" = "Ring_3" ∨ "Ring_7" = "Ring_6")) ∧
    (¬ ("Ring_7" = "Ring_1" ∨ "Ring_7" = "Ring_3" ∨ "Ring_7" = "Ring_6") →
      get_co2_type "Ring_7" = "eCO2") :=
  get_co2_type_spec "Ring_7"

/-- C10: called with an empty historical list and a recent file that does
exist on disk, the temperature/humidity and rainfall loaders evaluate
`os.path.getsize(path)` with the loop variable `path` never having been
bound, and raise a `NameError` instead of returning a series or Absent
(src/app.py:127, 191). -/
theorem trh_rain_empty_hist_raises
    (fs : String → DiskFile) (recent : String)
    (h : fs recent ≠ DiskFile.missing) :
    load_and_process_ring4_temp_rh_data fs [] recent =
      PyResult.raised PyErr.nameError ∧
    load_and_process_ring5_rain_data fs [] recent =
      PyResult.raised PyErr.nameError := by
  unfold load_and_process_ring4_temp_rh_data load_and_process_ring5_rain_data
  cases hr : fs recent with
  | missing => exact absurd hr h
  | empty => simp [trhHistFold, rainHistFold]
  | csv f => simp [trhHistFold, rainHistFold]

/-- Closed witness for `trh_rain_empty_hist_raises`: the recent path holds
an existing (zero-length) file and the historical list is empty. -/
theorem trh_rain_empty_hist_raises_witness :
    load_and_process_ring4_temp_rh_data fsC2 [] "recent.csv" =
      PyResult.raised PyErr.nameError ∧
    load_and_process_ring5_rain_data fsC2 [] "recent.csv" =
      PyResult.raised PyErr.nameError :=
  trh_rain_empty_hist_raises fsC2 "recent.csv" (by decide)

/-- C8: for the uniformly-spaced series [1,2,3,4,5] and window size 3 the
dashboard rolling mean produces [NaN, NaN, 2, 3, 4]: the first
`window - 1` positions are undefined and each later position is the exact
mean of the trailing window of three values. -/
theorem rolling_mean_window3 :
    rollingMean 3 [some 1, some 2, some 3, some 4, some 5] =
      [none, none, some 2, some 3, some 4] := by
  show List.map _ (List.range 5) = _
  rw [show List.range 5 = [0, 1, 2, 3, 4] from rfl]
  simp only [List.map_cons, List.map_nil]
  norm_num [List.take, List.drop, List.all, List.filterMap]
